import Mathlib

/-!
Shallow embedding of the NetSentinel dashboard client
(src/components/ThreatAnalysisDashboard.tsx and the revision embedded in
src/app/dashboard/page.tsx).

The live-feed ingestor (`ws.onmessage`) receives raw WebSocket payloads,
parses them as JSON, duck-type checks `data.incident_id` (truthiness) and
`typeof data.threat_score === "number"`, and folds accepted messages into
the bounded alert list via `setAlerts((prev) => [data, ...prev.slice(0, 9)])`.
We model parsed JavaScript values (`JsVal`), property access including the
TypeError on `null`/`undefined` receivers, JS truthiness, and the handler
itself.  A stream message is `Option JsVal`: `none` stands for a payload on
which `JSON.parse` threw.
-/

namespace NetSentinel

/-- A JavaScript runtime number: a finite value, `NaN`, or a signed
infinity.  `typeof` reports `"number"` for all of them. -/
inductive JsNum where
  | finite : Int → JsNum
  | nan : JsNum
  | inf : Bool → JsNum
deriving DecidableEq, Repr

/-- A JavaScript value as produced by `JSON.parse` (plus `vUndef`, the
result of reading an absent property). -/
inductive JsVal where
  | vUndef : JsVal
  | vNull : JsVal
  | vBool : Bool → JsVal
  | vNum : JsNum → JsVal
  | vStr : String → JsVal
  | vArr : List JsVal → JsVal
  | vObj : List (String × JsVal) → JsVal

/-- JS truthiness of a number: `0` and `NaN` are falsy. -/
def JsNum.truthy : JsNum → Bool
  | JsNum.finite q => q != 0
  | JsNum.nan => false
  | JsNum.inf _ => true

/-- JS truthiness: `undefined`, `null`, `false`, `0`, `NaN` and `""` are
falsy; every object (including arrays) is truthy. -/
def truthy : JsVal → Bool
  | JsVal.vUndef => false
  | JsVal.vNull => false
  | JsVal.vBool b => b
  | JsVal.vNum n => n.truthy
  | JsVal.vStr s => s != ""
  | JsVal.vArr _ => true
  | JsVal.vObj _ => true

/-- `typeof v === "number"`. -/
def isNumberType : JsVal → Bool
  | JsVal.vNum _ => true
  | _ => false

/-- Property lookup on a parsed JSON object: the last binding of a
duplicated key wins, an absent key reads as `undefined`. -/
def lookupField (fields : List (String × JsVal)) (k : String) : JsVal :=
  match fields.reverse.find? (fun p => p.1 == k) with
  | some p => p.2
  | none => JsVal.vUndef

/-- Property access `v.k`.  Reading a property of `null` or `undefined`
throws a TypeError (`none`); on any other non-object value the property is
simply `undefined` (ignoring built-ins, which the dashboard never reads). -/
def access (v : JsVal) (k : String) : Option JsVal :=
  match v with
  | JsVal.vUndef => none
  | JsVal.vNull => none
  | JsVal.vObj fields => some (lookupField fields k)
  | _ => some JsVal.vUndef

/-- The guard `data.incident_id && typeof data.threat_score === "number"`,
with JS short-circuiting; `none` means the evaluation threw (and the
surrounding `try` swallowed it). -/
def checkAccept (data : JsVal) : Option Bool :=
  match access data "incident_id" with
  | none => none
  | some idv =>
    if truthy idv then
      match access data "threat_score" with
      | none => none
      | some tv => some (isNumberType tv)
    else
      some false

/-- The message is accepted into the alert list. -/
def acceptsB (data : JsVal) : Bool :=
  checkAccept data == some true

/-- One `ws.onmessage` invocation acting on the alert list.  `none` input
means `JSON.parse(event.data)` threw; a caught exception or a failed guard
leaves the list untouched; acceptance runs
`setAlerts((prev) => [data, ...prev.slice(0, 9)])`. -/
def onMessage (parsed : Option JsVal) (prev : List JsVal) : List JsVal :=
  match parsed with
  | none => prev
  | some data =>
    match checkAccept data with
    | none => prev
    | some false => prev
    | some true => data :: prev.take 9

/-- Fold a whole inbound message sequence into the alert list, starting
from the initial `useState<Alert[]>([])`. -/
def ingest (msgs : List (Option JsVal)) : List JsVal :=
  msgs.foldl (fun acc m => onMessage m acc) []

/-- The subsequence of messages the guard accepts, in arrival order. -/
def acceptedOf (msgs : List (Option JsVal)) : List JsVal :=
  msgs.filterMap (fun m =>
    match m with
    | some d => if acceptsB d then some d else none
    | none => none)

/-- The ingestor component's observable state: the alert list plus whether
the WebSocket owned by the mount effect is still open. -/
structure FeedState where
  alerts : List JsVal
  wsOpen : Bool

/-- `ws.onmessage` on the full component state: it only folds into the
alert list and never touches the socket. -/
def onSocketMessage (parsed : Option JsVal) (s : FeedState) : FeedState :=
  { s with alerts := onMessage parsed s.alerts }

/-- The unmount cleanup `() => ws.close()`. -/
def closeSocket (s : FeedState) : FeedState :=
  { s with wsOpen := false }

/-- Run a message sequence through the stateful handler. -/
def runFeed (msgs : List (Option JsVal)) (s : FeedState) : FeedState :=
  msgs.foldl (fun acc m => onSocketMessage m acc) s

/-- One timeline entry (interface `IncidentSequenceItem`). -/
structure IncidentSequenceItem where
  timestamp : String
  type : String
  details : String
deriving DecidableEq, Repr

/-- A summary alert (interface `Alert`). -/
structure Alert where
  incident_id : String
  threat_score : JsNum
  main_event : String
  status : String
  sequence : List IncidentSequenceItem
  ai_summary : String
deriving DecidableEq, Repr

/-- A full incident record (interface `FullIncident extends Alert`). -/
structure FullIncident extends Alert where
  first_seen : Int
  last_seen : Int
  attacker_ip : String
  ai_playbook : Option String
deriving DecidableEq, Repr

/-- The dashboard's UI mode. -/
inductive Mode where
  | live : Mode
  | twin : Mode
deriving DecidableEq, Repr

/-- The component state of `ThreatAnalysisDashboard` that the claims
concern: `mode`, `alerts`, `activeIncident`, and the two feedback slots. -/
structure DashState where
  mode : Mode
  alerts : List JsVal
  activeIncident : Option FullIncident
  mitigationSuccess : Option String
  simulationFeedback : Option String

/-- The initial state of a freshly mounted dashboard. -/
def initialState : DashState :=
  { mode := Mode.live
    alerts := []
    activeIncident := none
    mitigationSuccess := none
    simulationFeedback := none }

/-- `handleModeChange`: `setMode(newMode)` and nothing else. -/
def handleModeChange (newMode : Mode) (s : DashState) : DashState :=
  { s with mode := newMode }

/-- The placeholder `FullIncident` synthesized in the `catch` branch of
`handleAlertClick`: the summary spread plus
`first_seen: Date.now(), last_seen: Date.now(),
attacker_ip: "192.168.1.100", ai_playbook: undefined`. -/
def synthesizeIncident (alert : Alert) (now : Int) : FullIncident :=
  { toAlert := alert
    first_seen := now
    last_seen := now
    attacker_ip := "192.168.1.100"
    ai_playbook := none }

/-- `handleAlertClick`: `fetched` is the result of
`GET /api/incident/{id}` — `some full` when it resolved, `none` when it
rejected for any reason (network error, non-2xx, malformed response). -/
def handleAlertClick (alert : Alert) (fetched : Option FullIncident)
    (now : Int) (s : DashState) : DashState :=
  match fetched with
  | some full => { s with activeIncident := some full }
  | none => { s with activeIncident := some (synthesizeIncident alert now) }

/-- The dismiss button's `onClick={() => setActiveIncident(null)}`. -/
def dismissIncident (s : DashState) : DashState :=
  { s with activeIncident := none }

/-- The two simulation kinds. -/
inductive SimType where
  | portscan : SimType
  | udpflood : SimType
deriving DecidableEq, Repr

/-- The toast text chosen by `type === "portscan" ? ... : ...`. -/
def simFeedbackMessage (t : SimType) : String :=
  match t with
  | SimType.portscan => "Port Scan simulation triggered"
  | SimType.udpflood => "UDP Flood simulation triggered"

/-- `triggerSimulation`: `succeeded` tells whether the
`POST /api/simulate/{type}` resolved; the `try` and `catch` branches both
set the same feedback message. -/
def triggerSimulation (t : SimType) (succeeded : Bool) (s : DashState) :
    DashState :=
  if succeeded then
    { s with simulationFeedback := some (simFeedbackMessage t) }
  else
    { s with simulationFeedback := some (simFeedbackMessage t) }

/-- What one `handleMitigate` invocation produced: the new state, the IP of
the issued `POST /api/mitigate/block_ip/{ip}` (if any), and the delay of
the scheduled `setTimeout(() => setActiveIncident(null), 1000)` (if any). -/
structure MitigateResult where
  state : DashState
  blockRequest : Option String
  closeDelayMs : Option Nat

/-- `handleMitigate`: the `if (!activeIncident?.attacker_ip) return;` guard
(falsy on a missing incident or an empty string), then the call; the `try`
and `catch` branches both set `mitigationSuccess` and schedule the close. -/
def handleMitigate (succeeded : Bool) (s : DashState) : MitigateResult :=
  match s.activeIncident with
  | none => ⟨s, none, none⟩
  | some inc =>
    if inc.attacker_ip = "" then ⟨s, none, none⟩
    else if succeeded then
      ⟨{ s with mitigationSuccess := some inc.incident_id },
        some inc.attacker_ip, some 1000⟩
    else
      ⟨{ s with mitigationSuccess := some inc.incident_id },
        some inc.attacker_ip, some 1000⟩

/-- The render guard of the mitigate button:
`activeIncident.attacker_ip && activeIncident.attacker_ip !== "Unknown"`. -/
def mitigateBtnShown (inc : FullIncident) : Bool :=
  (inc.attacker_ip != "") && (inc.attacker_ip != "Unknown")

/-- A valid summary message carrying only the two checked fields. -/
def mkSummaryMsg (i : String) : JsVal :=
  JsVal.vObj [("incident_id", JsVal.vStr i),
    ("threat_score", JsVal.vNum (JsNum.finite 50))]

/-- Eleven valid summaries with ids `A` through `K`, in arrival order. -/
def elevenMsgs : List (Option JsVal) :=
  ["A", "B", "C", "D", "E", "F", "G", "H", "I", "J", "K"].map
    (fun i => some (mkSummaryMsg i))

/-- Read the `incident_id` property of a message as a string, if it is
one. -/
def idFieldOf (v : JsVal) : Option String :=
  match access v "incident_id" with
  | some (JsVal.vStr s) => some s
  | _ => none

/-- The malformed-shape message `{"foo":"bar"}` from the spec scenario. -/
def fooBarMsg : JsVal :=
  JsVal.vObj [("foo", JsVal.vStr "bar")]

/-- An accepted message with a `NaN` threat score, an extra field, and no
`main_event`, `status`, `sequence` or `ai_summary` at all. -/
def nanAlertMsg : JsVal :=
  JsVal.vObj [("incident_id", JsVal.vStr "n1"),
    ("threat_score", JsVal.vNum JsNum.nan),
    ("extra_field", JsVal.vArr [JsVal.vNull])]

/-- One handler invocation, unfolded: an accepted message is prepended to
the first nine old entries, anything else leaves the list untouched. -/
theorem onMessage_some (d : JsVal) (prev : List JsVal) :
    onMessage (some d) prev =
      (if acceptsB d then d :: prev.take 9 else prev) := by
  cases h : checkAccept d with
  | none => simp [onMessage, acceptsB, h]
  | some b => cases b <;> simp [onMessage, acceptsB, h]

/-- A parse failure contributes nothing to the accepted subsequence. -/
theorem acceptedOf_cons_none (msgs : List (Option JsVal)) :
    acceptedOf (none :: msgs) = acceptedOf msgs := rfl

/-- A parsed message contributes itself exactly when the guard accepts
it. -/
theorem acceptedOf_cons_some (d : JsVal) (msgs : List (Option JsVal)) :
    acceptedOf (some d :: msgs) =
      (if acceptsB d then d :: acceptedOf msgs else acceptedOf msgs) := by
  simp only [acceptedOf, List.filterMap_cons]
  cases acceptsB d <;> simp

/-- Truncating the tail below the cut-off does not change a 10-bounded
window. -/
theorem take_ten_append_take_nine (Y acc : List JsVal)
    (h : 10 - Y.length ≤ 9) :
    (Y ++ acc.take 9).take 10 = (Y ++ acc).take 10 := by
  rw [List.take_append_eq_append_take, List.take_append_eq_append_take,
    List.take_take, Nat.min_eq_left h]

/-- Folding the handler from any 10-bounded accumulator yields the window
of the accepted messages (latest first), continued by the old entries. -/
theorem ingest_fold (msgs : List (Option JsVal)) :
    ∀ acc : List JsVal, acc.length ≤ 10 →
      msgs.foldl (fun a m => onMessage m a) acc =
        ((acceptedOf msgs).reverse ++ acc).take 10 := by
  induction msgs with
  | nil =>
    intro acc h
    simp only [List.foldl_nil, acceptedOf, List.filterMap_nil,
      List.reverse_nil, List.nil_append]
    exact (List.take_of_length_le h).symm
  | cons m rest ih =>
    intro acc h
    cases m with
    | none =>
      rw [List.foldl_cons, acceptedOf_cons_none]
      exact ih acc h
    | some d =>
      rw [List.foldl_cons]
      show List.foldl (fun a m => onMessage m a) (onMessage (some d) acc)
          rest = _
      rw [onMessage_some, acceptedOf_cons_some]
      by_cases hb : acceptsB d
      · simp only [hb, if_true]
        rw [ih (d :: acc.take 9)
          (by simp only [List.length_cons, List.length_take]; omega)]
        rw [List.reverse_cons]
        have hassoc : (acceptedOf rest).reverse ++ (d :: acc.take 9) =
            ((acceptedOf rest).reverse ++ [d]) ++ acc.take 9 := by
          simp
        rw [hassoc, take_ten_append_take_nine _ _
          (by simp [List.length_append])]
      · simp only [hb, if_false]
        exact ih acc h

/-- Property access never throws on a receiver on which some access
already succeeded. -/
theorem access_total (data : JsVal) (k k' : String) (v : JsVal)
    (h : access data k = some v) : ∃ w, access data k' = some w := by
  cases data <;> simp_all [access]

/-- A concrete summary alert used as a test vector. -/
def sampleAlert : Alert :=
  { incident_id := "X"
    threat_score := JsNum.finite 80
    main_event := "Scan"
    status := "active"
    sequence := [⟨"2024-01-01T00:00:00Z", "portscan", "ports 1-1024 probed"⟩]
    ai_summary := "Port scan detected." }

/-- A concrete full incident whose attacker address is the
`"Unknown"` sentinel. -/
def unknownIncident : FullIncident :=
  { toAlert := sampleAlert
    first_seen := 0
    last_seen := 0
    attacker_ip := "Unknown"
    ai_playbook := none }

/-- C9: `handleModeChange` touches only the `mode` field; the alert list,
the active incident and both feedback slots are unchanged in every state. -/
theorem mode_change_only_mode (m : Mode) (s : DashState) :
    (handleModeChange m s).mode = m ∧
    (handleModeChange m s).alerts = s.alerts ∧
    (handleModeChange m s).activeIncident = s.activeIncident ∧
    (handleModeChange m s).mitigationSuccess = s.mitigationSuccess ∧
    (handleModeChange m s).simulationFeedback = s.simulationFeedback :=
  ⟨rfl, rfl, rfl, rfl, rfl⟩

/-- C7: dismissing always clears the active incident to `none`, dismissing
twice equals dismissing once, and dismissing a state whose active incident
is already `none` leaves the state unchanged. -/
theorem dismiss_clears_and_idempotent (s : DashState) :
    (dismissIncident s).activeIncident = none ∧
    dismissIncident (dismissIncident s) = dismissIncident s ∧
    (s.activeIncident = none → dismissIncident s = s) := by
  refine ⟨rfl, rfl, ?_⟩
  intro h
  cases s
  simp only [dismissIncident] at h ⊢
  simp_all

/-- C7 witness: dismissing the freshly mounted state (no active incident)
is a no-op. -/
theorem dismiss_clears_and_idempotent_witness :
    dismissIncident initialState = initialState :=
  (dismiss_clears_and_idempotent initialState).2.2 rfl

/-- C6: selecting an alert always yields a non-null active incident: the
fetched record on success, the synthesized placeholder on failure. -/
theorem selection_always_yields_incident (alert : Alert)
    (fetched : Option FullIncident) (now : Int) (s : DashState) :
    (handleAlertClick alert fetched now s).activeIncident =
      some (fetched.getD (synthesizeIncident alert now)) ∧
    (handleAlertClick alert fetched now s).activeIncident ≠ none := by
  cases fetched <;> exact ⟨rfl, by simp [handleAlertClick]⟩

/-- C1 counterexample: on a failed detail fetch the synthesized incident's
attacker address is `"192.168.1.100"`, not the `"Unknown"` sentinel the
claim states. -/
theorem failed_fetch_sentinel_not_unknown :
    Option.map FullIncident.attacker_ip
        (handleAlertClick sampleAlert none 0 initialState).activeIncident =
      some "192.168.1.100" ∧
    Option.map FullIncident.attacker_ip
        (handleAlertClick sampleAlert none 0 initialState).activeIncident ≠
      some "Unknown" := ⟨rfl, by decide⟩

/-- C1 (amended): a failed detail fetch synthesizes a `FullIncident` whose
`incident_id`, `main_event` and `sequence` (indeed every summary field)
equal those of the originating summary, whose `first_seen` and `last_seen`
equal the synthesis time, and whose `attacker_ip` is the fixed fallback
string `"192.168.1.100"`. -/
theorem failed_fetch_placeholder (alert : Alert) (now : Int)
    (s : DashState) :
    (handleAlertClick alert none now s).activeIncident =
      some (synthesizeIncident alert now) ∧
    (synthesizeIncident alert now).incident_id = alert.incident_id ∧
    (synthesizeIncident alert now).main_event = alert.main_event ∧
    (synthesizeIncident alert now).sequence = alert.sequence ∧
    (synthesizeIncident alert now).first_seen = now ∧
    (synthesizeIncident alert now).last_seen = now ∧
    (synthesizeIncident alert now).attacker_ip = "192.168.1.100" :=
  ⟨rfl, rfl, rfl, rfl, rfl, rfl, rfl⟩

/-- C5: the outcome of a simulation or mitigation call does not depend on
whether the backend call succeeded: the same feedback message is always
set, `handleMitigate` produces the same result in both branches, and
whenever a mitigation request was issued the detail view close is
scheduled at the fixed 1000 ms delay. -/
theorem backend_result_not_distinguished (t : SimType) (s : DashState)
    (b b' : Bool) :
    triggerSimulation t b s = triggerSimulation t b' s ∧
    (triggerSimulation t b s).simulationFeedback =
      some (simFeedbackMessage t) ∧
    handleMitigate b s = handleMitigate b' s ∧
    (handleMitigate b s).closeDelayMs =
      (if (handleMitigate b s).blockRequest.isSome then some 1000
       else none) := by
  refine ⟨?_, ?_, ?_, ?_⟩
  · cases b <;> cases b' <;> rfl
  · cases b <;> rfl
  · cases hai : s.activeIncident with
    | none => simp [handleMitigate, hai]
    | some inc =>
      simp only [handleMitigate, hai]
      split <;> cases b <;> cases b' <;> rfl
  · cases hai : s.activeIncident with
    | none => simp [handleMitigate, hai]
    | some inc =>
      simp only [handleMitigate, hai]
      split
      · rfl
      · cases b <;> rfl

/-- C8: `handleMitigate` issues no request and changes nothing when there
is no active incident or its attacker address is empty, and the mitigate
button is rendered exactly when the attacker address is non-empty and not
the `"Unknown"` sentinel — in particular never for `"Unknown"`. -/
theorem mitigate_guard_and_render (s : DashState) (b : Bool) :
    (s.activeIncident = none → handleMitigate b s = ⟨s, none, none⟩) ∧
    (∀ inc, s.activeIncident = some inc → inc.attacker_ip = "" →
      handleMitigate b s = ⟨s, none, none⟩) ∧
    (∀ inc : FullIncident,
      mitigateBtnShown inc = true ↔
        (inc.attacker_ip ≠ "" ∧ inc.attacker_ip ≠ "Unknown")) ∧
    (∀ inc : FullIncident, inc.attacker_ip = "Unknown" →
      mitigateBtnShown inc = false) := by
  refine ⟨?_, ?_, ?_, ?_⟩
  · intro h
    simp [handleMitigate, h]
  · intro inc h hip
    simp [handleMitigate, h, hip]
  · intro inc
    simp [mitigateBtnShown, Bool.and_eq_true, bne_iff_ne]
  · intro inc h
    simp [mitigateBtnShown, h]

/-- C8 witness: in the initial state (no active incident) mitigation does
nothing, and the button is hidden for the concrete `"Unknown"` incident. -/
theorem mitigate_guard_and_render_witness :
    handleMitigate true initialState =
      ⟨initialState, none, none⟩ ∧
    mitigateBtnShown unknownIncident = false :=
  ⟨(mitigate_guard_and_render initialState true).1 rfl,
    (mitigate_guard_and_render initialState true).2.2.2 unknownIncident
      rfl⟩

/-- C2: the alert list always holds at most 10 entries and equals exactly
the most recently accepted messages, most-recent-first; an accepted
message only prepends and truncates (the kept entries `prev.take 9` are a
prefix of the old list); the 11-summary scenario `A..K` ends with
`K,J,...,B` and `A` evicted. -/
theorem alert_list_bounded_ordered (msgs : List (Option JsVal))
    (d : JsVal) (prev : List JsVal) :
    (ingest msgs).length ≤ 10 ∧
    ingest msgs = ((acceptedOf msgs).reverse).take 10 ∧
    onMessage (some d) prev =
      (if acceptsB d then d :: prev.take 9 else prev) ∧
    prev.take 9 ++ prev.drop 9 = prev ∧
    ingest elevenMsgs =
      (["K", "J", "I", "H", "G", "F", "E", "D", "C", "B"].map
        mkSummaryMsg) ∧
    (ingest elevenMsgs).map idFieldOf =
      (["K", "J", "I", "H", "G", "F", "E", "D", "C", "B"].map some) ∧
    some "A" ∉ (ingest elevenMsgs).map idFieldOf := by
  have hmain : ingest msgs = ((acceptedOf msgs).reverse).take 10 := by
    have := ingest_fold msgs [] (by simp)
    simpa [ingest] using this
  refine ⟨?_, hmain, onMessage_some d prev, List.take_append_drop 9 prev,
    rfl, rfl, by decide⟩
  rw [hmain]
  simp [List.length_take]

/-- C3: a stream message whose `incident_id` field is a string (or
absent) is accepted exactly when that string is non-empty and the
`threat_score` field is a JS number; a rejected message leaves the alert
list unchanged. -/
theorem accept_iff_id_and_score (data : JsVal) (prev : List JsVal)
    (hid : access data "incident_id" = some JsVal.vUndef ∨
      ∃ s, access data "incident_id" = some (JsVal.vStr s)) :
    (acceptsB data = true ↔
      ((∃ s, s ≠ "" ∧ access data "incident_id" = some (JsVal.vStr s)) ∧
        ∃ n, access data "threat_score" = some (JsVal.vNum n))) ∧
    (acceptsB data = false → onMessage (some data) prev = prev) := by
  constructor
  · rcases hid with h | ⟨s, hs⟩
    · have hfalse : acceptsB data = false := by
        simp [acceptsB, checkAccept, h, truthy]
      rw [hfalse]
      simp only [Bool.false_eq_true, false_iff]
      rintro ⟨⟨s, hne, hsv⟩, -⟩
      rw [h] at hsv
      cases hsv
    · by_cases hse : s = ""
      · subst hse
        have hfalse : acceptsB data = false := by
          simp [acceptsB, checkAccept, hs, truthy]
        rw [hfalse]
        simp only [Bool.false_eq_true, false_iff]
        rintro ⟨⟨s', hne, hsv⟩, -⟩
        rw [hs] at hsv
        cases hsv
        exact hne rfl
      · obtain ⟨w, hw⟩ := access_total data "incident_id" "threat_score"
          _ hs
        have hacc : acceptsB data = isNumberType w := by
          cases hn : isNumberType w <;>
            simp [acceptsB, checkAccept, hs, hw, truthy, hse, hn]
        rw [hacc]
        constructor
        · intro hnum
          refine ⟨⟨s, hse, hs⟩, ?_⟩
          cases w <;> simp [isNumberType] at hnum
          exact ⟨_, hw⟩
        · rintro ⟨-, n, hn⟩
          rw [hw] at hn
          cases hn
          rfl
  · intro hfalse
    rw [onMessage_some, hfalse]
    simp

/-- C3 witness: the spec scenario message `{"foo":"bar"}` (no
`incident_id` field) is rejected and leaves the empty alert list empty. -/
theorem accept_iff_id_and_score_witness :
    onMessage (some fooBarMsg) [] = [] :=
  (accept_iff_id_and_score fooBarMsg [] (Or.inl rfl)).2 (by decide)

/-- C4: a message on which parsing threw leaves the whole feed state —
alert list and socket — untouched, and removing it from any message
sequence does not change the outcome: every later message is processed as
if the malformed one had never arrived. -/
theorem malformed_message_harmless (s : FeedState)
    (pre post : List (Option JsVal)) :
    onSocketMessage none s = s ∧
    (onSocketMessage none s).wsOpen = s.wsOpen ∧
    (onSocketMessage none s).alerts = s.alerts ∧
    runFeed (pre ++ none :: post) s = runFeed (pre ++ post) s := by
  refine ⟨rfl, rfl, rfl, ?_⟩
  simp only [runFeed, List.foldl_append, List.foldl_cons]
  rfl

/-- C10: on any parsed object the guard tests exactly the truthiness of
`incident_id` and `typeof threat_score === "number"`, an accepted message
is prepended verbatim, and the concrete message with a `NaN` score, an
extra field and no other summary fields is accepted and stored as-is. -/
theorem duck_typed_acceptance (fields : List (String × JsVal))
    (prev : List JsVal) :
    acceptsB (JsVal.vObj fields) =
      (truthy (lookupField fields "incident_id") &&
        isNumberType (lookupField fields "threat_score")) ∧
    onMessage (some (JsVal.vObj fields)) prev =
      (if acceptsB (JsVal.vObj fields) then
        JsVal.vObj fields :: prev.take 9
       else prev) ∧
    acceptsB nanAlertMsg = true ∧
    onMessage (some nanAlertMsg) prev = nanAlertMsg :: prev.take 9 := by
  refine ⟨?_, onMessage_some _ _, by decide, rfl⟩
  cases h : truthy (lookupField fields "incident_id") with
  | false => simp [acceptsB, checkAccept, access, h]
  | true =>
    cases hn : isNumberType (lookupField fields "threat_score") <;>
      simp [acceptsB, checkAccept, access, h, hn]

end NetSentinel
